import Mathlib

/-!
Verification of the secure-credential and authentication subsystem of the
polymarket-arbitrage-bot repository, shallowly embedded in Lean 4.

The repository ships the callers and the integration tests of the core
modules (`scripts/setup_wizard.py`, `scripts/bot_cli.py`,
`scripts/integration_test.py`, `apps/debug_auth.py`); the core modules
themselves (`src/crypto.py`, `src/signer.py`, `src/client.py`,
`src/config.py`) are referenced but their code is not part of the
available sources.  Definitions for those modules are therefore modelled
from the specification (symbolic, Dolev-Yao style for the cryptographic
primitives), while the setup-wizard functions are translated directly
from `scripts/setup_wizard.py`.
-/

/-- Characters treated as whitespace by Python's `str.strip()` (ASCII subset). -/
def isPySpace (c : Char) : Bool :=
  c = ' ' || c = '\t' || c = '\n' || c = '\r' || c = '\x0b' || c = '\x0c'

/-- Embedding of Python's `str.strip()`: drop whitespace from both ends. -/
def pyStrip (s : String) : String :=
  ⟨((s.data.dropWhile isPySpace).reverse.dropWhile isPySpace).reverse⟩

/-- ASCII lower-casing of a single character, as Python's `str.lower()` acts on ASCII. -/
def lowerChar (c : Char) : Char :=
  if 'A' ≤ c ∧ c ≤ 'Z' then Char.ofNat (c.toNat + 32) else c

/-- Lowercase hex digit test (keys are lower-cased before validation). -/
def isHexChar (c : Char) : Bool :=
  (decide ('0' ≤ c) && decide (c ≤ '9')) || (decide ('a' ≤ c) && decide (c ≤ 'f'))

/-- Drop a leading `0x` marker from a character list, if present. -/
def hexTail : List Char → List Char
  | '0' :: 'x' :: rest => rest
  | l => l

/-- Modelled from the spec: `src/crypto.py` `verify_private_key` — format
validation of a raw private key: after lower-casing and removing an optional
`0x` marker, the key must be exactly 64 hex characters. -/
def verify_private_key (s : String) : Bool :=
  let h := hexTail (s.data.map lowerChar)
  h.length == 64 && h.all isHexChar

/-- Modelled from the spec: canonical form of a raw private key — lowercase,
`0x`-prefixed hex string, exactly as `KeyManager.encrypt` stores it and as
the integration test recomputes it (`integration_test.py` lines 131-133). -/
def normalizeKey (s : String) : String :=
  ⟨'0' :: 'x' :: hexTail (s.data.map lowerChar)⟩

/-- Error taxonomy of the crypto module (spec section 7). -/
inductive CryptoErr where
  | invalidKeyFormat
  | invalidPassword
  | cryptoError
deriving DecidableEq

/-- Modelled from the spec: the symmetric key PBKDF2 derives from
(password, salt, iteration count); represented symbolically by the triple of
its inputs, so two derived keys are equal exactly when the inputs agree. -/
structure DerivedKey where
  password : String
  salt : List Nat
  iterations : Nat
deriving DecidableEq

/-- Modelled from the spec: an authenticated (Fernet-style) ciphertext —
symbolically, the encryption key together with the protected plaintext; the
integrity tag is combined with the ciphertext, and authenticated decryption
under key `k` succeeds exactly when `k` equals `encKey`. -/
structure AuthCiphertext where
  encKey : DerivedKey
  plain : String
deriving DecidableEq

/-- Modelled from the spec: the persisted encrypted-key record
`{version, kdf_algorithm, kdf_iterations, salt, ciphertext}` (the integrity
tag is combined with the ciphertext). -/
structure EncryptedKeyRecord where
  version : Nat
  kdf_algorithm : String
  kdf_iterations : Nat
  salt : List Nat
  ciphertext : AuthCiphertext
deriving DecidableEq

/-- PBKDF2 iteration count used by the key manager (`setup_wizard.py` docstring). -/
def KDF_ITERATIONS : Nat := 480000

/-- KDF algorithm identifier stored in the record. -/
def PBKDF2_ALG : String := "PBKDF2-HMAC-SHA256"

/-- Fresh-salt generator: the 16 base-256 digits of the entropy sample the
caller supplies, so distinct entropy below `256^16` gives distinct salts. -/
def genSaltAux : Nat → Nat → List Nat
  | 0, _ => []
  | n + 1, s => s % 256 :: genSaltAux n (s / 256)

/-- Modelled from the spec: a fresh random 16-byte salt per encryption call,
deterministically parameterised by the entropy `seed`. -/
def genSalt (seed : Nat) : List Nat := genSaltAux 16 seed

/-- Modelled from the spec: PBKDF2 key derivation, symbolic. -/
def kdf (password : String) (salt : List Nat) (iterations : Nat) : DerivedKey :=
  ⟨password, salt, iterations⟩

/-- Modelled from the spec: `KeyManager.encrypt(private_key, password)` —
validates the key format, draws a fresh salt from the entropy `seed`, derives
the symmetric key with 480000 PBKDF2 iterations, and stores the normalized
key under authenticated encryption. -/
def KeyManager.encrypt (key password : String) (seed : Nat) :
    Except CryptoErr EncryptedKeyRecord :=
  if verify_private_key key then
    .ok { version := 1
          kdf_algorithm := PBKDF2_ALG
          kdf_iterations := KDF_ITERATIONS
          salt := genSalt seed
          ciphertext := { encKey := kdf password (genSalt seed) KDF_ITERATIONS
                          plain := normalizeKey key } }
  else .error .invalidKeyFormat

/-- Modelled from the spec: `KeyManager.decrypt(record, password)` — rejects
structurally malformed records with `CryptoError`, re-derives the key from
(password, record.salt, record.kdf_iterations), and performs authenticated
decryption: `InvalidPasswordError` exactly when the integrity check fails,
the stored plaintext otherwise. -/
def KeyManager.decrypt (r : EncryptedKeyRecord) (password : String) :
    Except CryptoErr String :=
  if r.version = 1 ∧ r.kdf_algorithm = PBKDF2_ALG then
    if r.ciphertext.encKey = kdf password r.salt r.kdf_iterations then
      .ok r.ciphertext.plain
    else .error .invalidPassword
  else .error .cryptoError

/-- A key-file store: association list from path to persisted record. -/
def FileSystem := List (String × EncryptedKeyRecord)

/-- Look a path up in the store (first match, like a real file system). -/
def fsLookup : FileSystem → String → Option EncryptedKeyRecord
  | [], _ => none
  | (p, r) :: rest, path => if p = path then some r else fsLookup rest path

/-- Modelled from the spec: `KeyManager.encrypt_and_save(key, password, path)` —
encrypt, then persist the record at `path` (atomic write). -/
def KeyManager.encrypt_and_save (key password path : String) (seed : Nat)
    (fs : FileSystem) : Except CryptoErr FileSystem :=
  (KeyManager.encrypt key password seed).map (fun r => (path, r) :: fs)

/-- Modelled from the spec: `KeyManager.load_and_decrypt(password, path)` —
`CryptoError` when the file is absent, otherwise decrypt the stored record.
The key manager keeps no instance state, so a fresh instance reads the same
store identically. -/
def KeyManager.load_and_decrypt (password path : String) (fs : FileSystem) :
    Except CryptoErr String :=
  match fsLookup fs path with
  | none => .error .cryptoError
  | some r => KeyManager.decrypt r password

theorem genSaltAux_length (n s : Nat) : (genSaltAux n s).length = n := by
  induction n generalizing s with
  | zero => simp [genSaltAux]
  | succ n ih => simp [genSaltAux, ih]

/-- Recombine salt bytes little-endian. -/
def fromSalt : List Nat → Nat
  | [] => 0
  | d :: rest => d + 256 * fromSalt rest

theorem fromSalt_genSaltAux (n s : Nat) : fromSalt (genSaltAux n s) = s % 256 ^ n := by
  induction n generalizing s with
  | zero => simp [genSaltAux, fromSalt, Nat.mod_one]
  | succ n ih =>
    simp only [genSaltAux, fromSalt, ih]
    rw [pow_succ, mul_comm (256 ^ n) 256, Nat.mod_mul]

theorem genSalt_injOn (s1 s2 : Nat) (h1 : s1 < 256 ^ 16) (h2 : s2 < 256 ^ 16)
    (h : genSalt s1 = genSalt s2) : s1 = s2 := by
  have e := congrArg fromSalt h
  rw [genSalt, genSalt, fromSalt_genSaltAux, fromSalt_genSaltAux,
    Nat.mod_eq_of_lt h1, Nat.mod_eq_of_lt h2] at e
  exact e

/-- Deterministic 32-bit digest of a character list (symbolic stand-in for the
hash functions under the signatures; only determinism and function-of-input
matter for the claims). -/
def hashChars : List Char → Nat
  | [] => 5381
  | c :: rest => (hashChars rest * 131 + c.toNat + 7) % 4294967296

/-- Digest of a string. -/
def hashStr (s : String) : Nat := hashChars s.data

/-- Hex digit for a nibble value: `0`-`9` for values below ten, `a`-`f` above. -/
def toHexNibble (n : Nat) : Char :=
  if n % 16 < 10 then Char.ofNat (48 + n % 16) else Char.ofNat (87 + n % 16)

/-- Two hex digits for one byte value. -/
def toHexByte (n : Nat) : List Char := [toHexNibble (n / 16), toHexNibble (n % 16)]

/-- Hex rendering of a byte list, two characters per byte. -/
def bytesToHex : List Nat → List Char
  | [] => []
  | b :: bs => toHexByte b ++ bytesToHex bs

/-- Errors of the signer module (spec section 7). -/
inductive SignErr where
  | signingError
deriving DecidableEq

/-- Modelled from the spec: `src/signer.py` ECDSA signature production — a
65-byte (r, s, recovery-id) signature, symbolically a deterministic function
of the signing key and the message. -/
def sigBytes (key msg : String) : List Nat :=
  (List.range 65).map (fun i => (hashChars (key ++ ":" ++ msg).data + 31 * i + 11) % 256)

/-- Modelled from the spec: the 20 address bytes derived from the key
(keccak of the public key, symbolically a deterministic digest of the
normalized key). -/
def addrBytes (key : String) : List Nat :=
  (List.range 20).map (fun i => (hashChars (normalizeKey key).data + 97 * i + 3) % 256)

/-- Modelled from the spec: `WalletAddress` derivation — a pure function of
the raw private key, rendered as `0x` plus 40 hex characters. -/
def deriveAddress (key : String) : String :=
  ⟨'0' :: 'x' :: bytesToHex (addrBytes key)⟩

/-- Modelled from the spec: `src/signer.py` `OrderSigner` — holds the
normalized key and the address computed once at construction. -/
structure OrderSigner where
  key : String
  address : String
deriving DecidableEq

/-- Modelled from the spec: `OrderSigner` construction — validates the key
(failing with `SigningError` for an invalid scalar) and caches the derived
address. -/
def mkOrderSigner (key : String) : Except SignErr OrderSigner :=
  if verify_private_key key then .ok ⟨normalizeKey key, deriveAddress key⟩
  else .error .signingError

/-- Modelled from the spec: the fixed, implementation-constant authentication
message `sign_auth_message` signs. -/
def AUTH_MESSAGE : String := "This message attests that I control the given wallet"

/-- Modelled from the spec: `OrderSigner.sign_auth_message()` — signs the
fixed authentication message and renders the 65 signature bytes as a
`0x`-prefixed hex string. -/
def OrderSigner.sign_auth_message (s : OrderSigner) : String :=
  ⟨'0' :: 'x' :: bytesToHex (sigBytes s.key AUTH_MESSAGE)⟩

/-- Order side. -/
inductive Side where
  | BUY
  | SELL
deriving DecidableEq

/-- `Order` value object `{token_id, price, size, side, maker}`
(spec section 3; field names as in `integration_test.py` lines 188-194). -/
structure Order where
  token_id : String
  price : Rat
  size : Rat
  side : Side
  maker : String
deriving DecidableEq

/-- Fixed-point integer representation of a decimal (six fractional digits),
used for the canonical order encoding. -/
def ratToFixed (q : Rat) : Int := q.num * 1000000 / (q.den : Int)

/-- Canonical textual form of a side. -/
def sideStr : Side → String
  | .BUY => "BUY"
  | .SELL => "SELL"

/-- Modelled from the spec: the canonical, fixed-field-order encoding of an
order (deterministic fixed-point numeric formatting). -/
def orderMessage (o : Order) : String :=
  o.token_id ++ ":" ++ toString (ratToFixed o.price) ++ ":" ++
    toString (ratToFixed o.size) ++ ":" ++ sideStr o.side ++ ":" ++ o.maker

/-- `SignedOrder` payload `{order, signature, signer}` (spec section 3). -/
structure SignedOrder where
  order : Order
  signature : String
  signer : String
deriving DecidableEq

/-- Modelled from the spec: `OrderSigner.sign_order(order)` — signs the
canonical encoding of the order and returns `{order, signature,
signer: self.address}` without mutating the order. -/
def OrderSigner.sign_order (s : OrderSigner) (o : Order) : SignedOrder :=
  { order := o
    signature := ⟨'0' :: 'x' :: bytesToHex (sigBytes s.key (orderMessage o))⟩
    signer := s.address }

/-- Boolean non-emptiness of a string. -/
def nonEmptyStr (s : String) : Bool := decide (s ≠ "")

/-- Modelled from the spec: `src/config.py` `BuilderConfig` — the optional
builder credential triple. -/
structure BuilderConfig where
  api_key : String
  api_secret : String
  api_passphrase : String
deriving DecidableEq

/-- Modelled from the spec: `BuilderConfig.is_configured()` holds iff all
three credential fields are non-empty. -/
def BuilderConfig.is_configured (c : BuilderConfig) : Bool :=
  nonEmptyStr c.api_key && nonEmptyStr c.api_secret && nonEmptyStr c.api_passphrase

/-- Modelled from the spec: the HMAC-SHA256 digest of the canonical request
message under the builder secret — symbolically, 32 bytes determined by
(secret, message). -/
def hmacSha256 (secret msg : String) : List Nat :=
  (List.range 32).map (fun i => (hashChars (secret ++ "|" ++ msg).data + 17 * i + 5) % 256)

/-- Modelled from the spec: the canonical request message — the deterministic
concatenation of timestamp, HTTP method, path and body, in that fixed order. -/
def buildAuthMessage (timestamp method path body : String) : String :=
  timestamp ++ method ++ path ++ body

/-- Modelled from the spec: `src/client.py` `ClobClient._build_headers` —
exactly the four documented headers when the builder credentials are
configured, no headers otherwise (header names as checked by
`integration_test.py` lines 346-351). -/
def build_headers (method path : String) (c : BuilderConfig) (body timestamp : String) :
    List (String × String) :=
  if c.is_configured then
    [("POLY_BUILDER_API_KEY", c.api_key),
     ("POLY_BUILDER_TIMESTAMP", timestamp),
     ("POLY_BUILDER_PASSPHRASE", c.api_passphrase),
     ("POLY_BUILDER_SIGNATURE",
       ⟨bytesToHex (hmacSha256 c.api_secret (buildAuthMessage timestamp method path body))⟩)]
  else []

/-- Modelled from the spec: `src/config.py` `Config` — the fields
`setup_wizard.create_config` populates. -/
structure Config where
  safe_address : String
  data_dir : String
  use_gasless : Bool
  builder : BuilderConfig
deriving DecidableEq

/-- The all-empty builder credentials (`BuilderConfig()` default). -/
def emptyBuilder : BuilderConfig := ⟨"", "", ""⟩

/-- Python `dict.get(key, "")` on an association list. -/
def dictGet : List (String × String) → String → String
  | [], _ => ""
  | (k, v) :: rest, key => if k = key then v else dictGet rest key

/-- `setup_wizard.input_builder_credentials`, as a function of the three raw
user inputs: an empty (stripped) API key skips the whole triple; otherwise the
full dict is returned even when secret or passphrase is empty (the code only
prints a warning). -/
def input_builder_credentials (api_key api_secret api_passphrase : String) :
    List (String × String) :=
  let k := pyStrip api_key
  if k = "" then []
  else [("api_key", k),
        ("api_secret", pyStrip api_secret),
        ("api_passphrase", pyStrip api_passphrase)]

/-- `setup_wizard.create_config`: `use_gasless` is the truthiness of the
credentials dict, and `builder` is populated from the dict when non-empty. -/
def create_config (safe_address : String) (builder_creds : List (String × String))
    (data_dir : String) : Config :=
  { safe_address := safe_address
    data_dir := data_dir
    use_gasless := decide (builder_creds ≠ [])
    builder :=
      if builder_creds = [] then emptyBuilder
      else ⟨dictGet builder_creds "api_key",
            dictGet builder_creds "api_secret",
            dictGet builder_creds "api_passphrase"⟩ }

/-- `setup_wizard.input_password`, as a function of the finite list of
(password, confirmation) attempts the user makes: each entry is stripped, a
password shorter than 8 characters or differing from its stripped
confirmation is rejected and the loop retries on the next attempt. -/
def input_password : List (String × String) → Option String
  | [] => none
  | (pw, cf) :: rest =>
    let p := pyStrip pw
    if p.length < 8 then input_password rest
    else if ¬ (pyStrip cf = p) then input_password rest
    else some p

/-- Concrete 64-hex-character test key used by the witnesses. -/
def testKey : String :=
  "0xabcdefabcdef0123456789abcdef0123456789abcdef0123456789abcdef0123"

/-- Concrete test password used by the witnesses. -/
def testPassword : String := "hunter2password"

/-- The record `KeyManager.encrypt testKey testPassword 0` produces. -/
def testRecord : EncryptedKeyRecord :=
  { version := 1
    kdf_algorithm := PBKDF2_ALG
    kdf_iterations := KDF_ITERATIONS
    salt := genSalt 0
    ciphertext := { encKey := kdf testPassword (genSalt 0) KDF_ITERATIONS
                    plain := normalizeKey testKey } }

/-- The signer `mkOrderSigner testKey` constructs. -/
def testSigner : OrderSigner := ⟨normalizeKey testKey, deriveAddress testKey⟩

theorem bytesToHex_length (bs : List Nat) : (bytesToHex bs).length = 2 * bs.length := by
  induction bs with
  | nil => simp [bytesToHex]
  | cons b bs ih => simp [bytesToHex, toHexByte, ih]; omega

theorem isHexChar_toHexNibble (n : Nat) : isHexChar (toHexNibble n) = true := by
  have hlt : n % 16 < 16 := Nat.mod_lt _ (by norm_num)
  have hall : ∀ m < 16,
      isHexChar (if m < 10 then Char.ofNat (48 + m) else Char.ofNat (87 + m)) = true := by
    decide
  have := hall _ hlt
  rwa [toHexNibble]

theorem mem_bytesToHex_isHex (bs : List Nat) (c : Char) (h : c ∈ bytesToHex bs) :
    isHexChar c = true := by
  induction bs with
  | nil => simp [bytesToHex] at h
  | cons b bs ih =>
    simp only [bytesToHex, toHexByte, List.mem_append, List.mem_cons,
      List.not_mem_nil, or_false] at h
    rcases h with (h | h) | h
    · rw [h]; exact isHexChar_toHexNibble _
    · rw [h]; exact isHexChar_toHexNibble _
    · exact ih h

/-- C1: for every private key passing format validation and every non-empty
password, decrypting the encryption of the key under the same password
succeeds and returns the normalized (lowercase, `0x`-prefixed) key, exactly
as `encrypt` stored it. -/
theorem encrypt_decrypt_roundtrip (k p : String) (seed : Nat)
    (hk : verify_private_key k = true) (hp : p ≠ "") :
    (KeyManager.encrypt k p seed).bind (fun r => KeyManager.decrypt r p) =
      .ok (normalizeKey k) := by
  simp [KeyManager.encrypt, KeyManager.decrypt, Except.bind, hk]

/-- Witness for C1 at the concrete test key and password. -/
theorem encrypt_decrypt_roundtrip_witness :
    verify_private_key testKey = true ∧ testPassword ≠ "" ∧
      (KeyManager.encrypt testKey testPassword 0).bind
        (fun r => KeyManager.decrypt r testPassword) = .ok (normalizeKey testKey) :=
  ⟨by decide, by decide, encrypt_decrypt_roundtrip testKey testPassword 0 (by decide) (by decide)⟩

/-- C2: decrypting under a different password always fails with
`InvalidPasswordError`; moreover, on a structurally well-formed record
`decrypt` reports `InvalidPasswordError` exactly when the authentication
check fails, and whenever it returns a value the check succeeded and the
value is the authenticated plaintext. -/
theorem wrong_password_rejection (k p q : String) (seed : Nat)
    (hk : verify_private_key k = true) (hne : q ≠ p) :
    (KeyManager.encrypt k p seed).bind (fun r => KeyManager.decrypt r q) =
      .error .invalidPassword ∧
    (∀ (r : EncryptedKeyRecord) (pw : String), r.version = 1 →
      r.kdf_algorithm = PBKDF2_ALG →
      (KeyManager.decrypt r pw = .error .invalidPassword ↔
        r.ciphertext.encKey ≠ kdf pw r.salt r.kdf_iterations)) ∧
    (∀ (r : EncryptedKeyRecord) (pw x : String), KeyManager.decrypt r pw = .ok x →
      r.ciphertext.encKey = kdf pw r.salt r.kdf_iterations ∧ x = r.ciphertext.plain) := by
  refine ⟨?_, ?_, ?_⟩
  · simp [KeyManager.encrypt, KeyManager.decrypt, Except.bind, hk, kdf,
      DerivedKey.mk.injEq]
    exact fun h => hne h.symm
  · intro r pw h1 h2
    simp only [KeyManager.decrypt, h1, h2, and_self, if_true]
    by_cases hkey : r.ciphertext.encKey = kdf pw r.salt r.kdf_iterations
    · simp [hkey]
    · simp [hkey]
  · intro r pw x h
    unfold KeyManager.decrypt at h
    split at h
    · split at h
      · refine ⟨by assumption, ?_⟩
        injection h with h2
        exact h2.symm
      · exact absurd h (by simp)
    · exact absurd h (by simp)

/-- Witness for C2 at the concrete test key and two distinct passwords. -/
theorem wrong_password_rejection_witness :
    verify_private_key testKey = true ∧ ("wrongpass" : String) ≠ testPassword ∧
      (KeyManager.encrypt testKey testPassword 0).bind
        (fun r => KeyManager.decrypt r "wrongpass") = .error .invalidPassword :=
  ⟨by decide, by decide,
    (wrong_password_rejection testKey testPassword "wrongpass" 0 (by decide) (by decide)).1⟩

/-- C3: `build_headers` produces exactly the four documented headers (API
key, timestamp, passphrase, HMAC signature), in that order, when the builder
credentials are configured, and no headers at all otherwise. -/
theorem build_headers_exactly_four (method path : String) (c : BuilderConfig)
    (body timestamp : String) :
    (build_headers method path c body timestamp).map Prod.fst =
      if c.is_configured then
        ["POLY_BUILDER_API_KEY", "POLY_BUILDER_TIMESTAMP",
         "POLY_BUILDER_PASSPHRASE", "POLY_BUILDER_SIGNATURE"]
      else [] := by
  unfold build_headers
  split <;> simp

/-- C4: `sign_auth_message()` always returns a 132-character string: `0x`
followed by exactly 130 hex characters. -/
theorem sign_auth_message_shape (s : OrderSigner) :
    s.sign_auth_message.length = 132 ∧
    s.sign_auth_message.data.take 2 = ['0', 'x'] ∧
    ∀ c ∈ s.sign_auth_message.data.drop 2, isHexChar c = true := by
  refine ⟨?_, rfl, ?_⟩
  · show ('0' :: 'x' :: bytesToHex (sigBytes s.key AUTH_MESSAGE)).length = 132
    rw [List.length_cons, List.length_cons, bytesToHex_length]
    simp [sigBytes]
  · intro c hc
    exact mem_bytesToHex_isHex _ _ hc

/-- C5: `sign_order(o)` returns a payload of exactly the fields
`{order, signature, signer}` (the `SignedOrder` shape), with `signer` equal
to the signer's address and the embedded order unchanged. -/
theorem sign_order_structure (s : OrderSigner) (o : Order) :
    (s.sign_order o).order = o ∧ (s.sign_order o).signer = s.address :=
  ⟨rfl, rfl⟩

/-- C6: two constructions of `OrderSigner` from the same key yield the same
address, which is the pure function `deriveAddress` of the key alone. -/
theorem address_deterministic (k : String) (s1 s2 : OrderSigner)
    (h1 : mkOrderSigner k = .ok s1) (h2 : mkOrderSigner k = .ok s2) :
    s1.address = s2.address ∧ s1.address = deriveAddress k := by
  unfold mkOrderSigner at h1 h2
  by_cases hv : verify_private_key k = true
  · rw [if_pos hv] at h1 h2
    injection h1 with h1
    injection h2 with h2
    rw [← h1, ← h2]
    exact ⟨rfl, rfl⟩
  · rw [if_neg hv] at h1
    exact absurd h1 (by simp)

/-- Witness for C6 at the concrete test key. -/
theorem address_deterministic_witness :
    testSigner.address = testSigner.address ∧ testSigner.address = deriveAddress testKey :=
  address_deterministic testKey testSigner testSigner rfl rfl

/-- C7: every record `encrypt` emits carries a 16-byte (hence at-least-16
byte) salt and a KDF iteration count of at least 480000, and the salt
generator is injective on entropy samples below `256^16`, so each call's
fresh entropy yields a fresh salt. -/
theorem encrypt_record_salt_iterations (k p : String) (seed : Nat)
    (r : EncryptedKeyRecord) (h : KeyManager.encrypt k p seed = .ok r) :
    16 ≤ r.salt.length ∧ 480000 ≤ r.kdf_iterations ∧
    ∀ s1 s2 : Nat, s1 < 256 ^ 16 → s2 < 256 ^ 16 → genSalt s1 = genSalt s2 → s1 = s2 := by
  unfold KeyManager.encrypt at h
  split at h
  · injection h with h
    rw [← h]
    refine ⟨?_, ?_, genSalt_injOn⟩
    · show 16 ≤ (genSalt seed).length
      rw [genSalt, genSaltAux_length]
    · show 480000 ≤ KDF_ITERATIONS
      rw [KDF_ITERATIONS]
  · exact absurd h (by simp)

/-- Witness for C7 at the concrete test key, password and entropy. -/
theorem encrypt_record_salt_iterations_witness :
    16 ≤ testRecord.salt.length ∧ 480000 ≤ testRecord.kdf_iterations ∧
    ∀ s1 s2 : Nat, s1 < 256 ^ 16 → s2 < 256 ^ 16 → genSalt s1 = genSalt s2 → s1 = s2 :=
  encrypt_record_salt_iterations testKey testPassword 0 testRecord rfl

/-- C8: saving an encrypted key and loading it back — the key manager being
stateless, a fresh instance behaves identically — reproduces the normalized
key, while loading from a path with no file fails with `CryptoError`, an
error distinct from `InvalidPasswordError`. -/
theorem file_roundtrip_fresh_instance (k p path : String) (seed : Nat) (fs : FileSystem)
    (hk : verify_private_key k = true) (hp : p ≠ "") :
    (KeyManager.encrypt_and_save k p path seed fs).bind
      (KeyManager.load_and_decrypt p path) = .ok (normalizeKey k) ∧
    (∀ (fs2 : FileSystem) (pw pa : String), fsLookup fs2 pa = none →
      KeyManager.load_and_decrypt pw pa fs2 = .error .cryptoError) ∧
    CryptoErr.cryptoError ≠ CryptoErr.invalidPassword := by
  refine ⟨?_, ?_, by simp⟩
  · simp [KeyManager.encrypt_and_save, KeyManager.encrypt, hk, Except.map, Except.bind,
      KeyManager.load_and_decrypt, fsLookup, KeyManager.decrypt]
  · intro fs2 pw pa hnone
    unfold KeyManager.load_and_decrypt
    rw [hnone]

/-- Witness for C8 at the concrete test key, password, path and empty store. -/
theorem file_roundtrip_fresh_instance_witness :
    (KeyManager.encrypt_and_save testKey testPassword "credentials/encrypted_key.json" 0 []).bind
      (KeyManager.load_and_decrypt testPassword "credentials/encrypted_key.json") =
      .ok (normalizeKey testKey) ∧
    (∀ (fs2 : FileSystem) (pw pa : String), fsLookup fs2 pa = none →
      KeyManager.load_and_decrypt pw pa fs2 = .error .cryptoError) ∧
    CryptoErr.cryptoError ≠ CryptoErr.invalidPassword :=
  file_roundtrip_fresh_instance testKey testPassword "credentials/encrypted_key.json" 0 []
    (by decide) (by decide)

/-- C9: when the user enters a non-empty builder API key but an empty secret
or passphrase, `input_builder_credentials` still returns a non-empty dict and
`create_config` enables gasless mode, although the resulting credential
triple is not configured. -/
theorem incomplete_builder_enables_gasless (api_key api_secret api_passphrase sa dd : String)
    (hk : pyStrip api_key ≠ "")
    (hinc : pyStrip api_secret = "" ∨ pyStrip api_passphrase = "") :
    input_builder_credentials api_key api_secret api_passphrase ≠ [] ∧
    (create_config sa (input_builder_credentials api_key api_secret api_passphrase)
      dd).use_gasless = true ∧
    (create_config sa (input_builder_credentials api_key api_secret api_passphrase)
      dd).builder.is_configured = false := by
  have hcreds : input_builder_credentials api_key api_secret api_passphrase =
      [("api_key", pyStrip api_key),
       ("api_secret", pyStrip api_secret),
       ("api_passphrase", pyStrip api_passphrase)] := by
    unfold input_builder_credentials
    rw [if_neg hk]
  rw [hcreds]
  refine ⟨by simp, by simp [create_config], ?_⟩
  have hbuilder : (create_config sa
      [("api_key", pyStrip api_key),
       ("api_secret", pyStrip api_secret),
       ("api_passphrase", pyStrip api_passphrase)] dd).builder =
      ⟨pyStrip api_key, pyStrip api_secret, pyStrip api_passphrase⟩ := by
    simp [create_config, dictGet]
  rw [hbuilder]
  rcases hinc with h | h <;>
    simp [BuilderConfig.is_configured, nonEmptyStr, h]

/-- Witness for C9 at concrete wizard inputs with an empty secret. -/
theorem incomplete_builder_enables_gasless_witness :
    input_builder_credentials "builder-key-1" "" "phrase" ≠ [] ∧
    (create_config "0xsafe" (input_builder_credentials "builder-key-1" "" "phrase")
      "credentials").use_gasless = true ∧
    (create_config "0xsafe" (input_builder_credentials "builder-key-1" "" "phrase")
      "credentials").builder.is_configured = false :=
  incomplete_builder_enables_gasless "builder-key-1" "" "phrase" "0xsafe" "credentials"
    (by decide) (Or.inl (by decide))

/-- C10: every password `input_password` returns has at least 8 characters
(in particular it is non-empty, strictly stronger than the spec precondition)
and comes from an attempt whose password and confirmation agree after
stripping. -/
theorem input_password_length_confirmed (attempts : List (String × String)) (p : String)
    (h : input_password attempts = some p) :
    8 ≤ p.length ∧ p ≠ "" ∧
    ∃ a ∈ attempts, pyStrip a.1 = p ∧ pyStrip a.2 = p := by
  induction attempts with
  | nil => exact absurd h (by simp [input_password])
  | cons a rest ih =>
    rw [input_password] at h
    by_cases hlen : (pyStrip a.1).length < 8
    · rw [if_pos hlen] at h
      obtain ⟨g1, g2, b, hb, hb2⟩ := ih h
      exact ⟨g1, g2, b, List.mem_cons_of_mem _ hb, hb2⟩
    · rw [if_neg hlen] at h
      by_cases hcf : ¬ (pyStrip a.2 = pyStrip a.1)
      · rw [if_pos hcf] at h
        obtain ⟨g1, g2, b, hb, hb2⟩ := ih h
        exact ⟨g1, g2, b, List.mem_cons_of_mem _ hb, hb2⟩
      · rw [if_neg hcf] at h
        injection h with h
        rw [not_not] at hcf
        refine ⟨?_, ?_, a, List.mem_cons_self a rest, h, by rw [hcf, h]⟩
        · rw [← h]; omega
        · intro he
          rw [he] at h
          rw [h] at hlen
          exact hlen (by decide)

/-- Witness for C10 at a concrete interaction: a too-short attempt, a
mismatched attempt, then a valid confirmed attempt. -/
theorem input_password_length_confirmed_witness :
    8 ≤ ("password123" : String).length ∧ ("password123" : String) ≠ "" ∧
    ∃ a ∈ [("short", "short"), ("password123", "different"),
           (" password123 ", "password123")],
      pyStrip a.1 = "password123" ∧ pyStrip a.2 = "password123" :=
  input_password_length_confirmed
    [("short", "short"), ("password123", "different"), (" password123 ", "password123")]
    "password123" (by decide)
